import Mathlib

/-!
Verification of the core fetch engine of the `pystlouisfed` library
(`pystlouisfed/client.py`): the `URLFactory.create` URL builder and the
paginated `Client.get` loop.

The Python code is shallowly embedded:

* Python parameter values (the "declared semantic types" of the spec:
  string, integer, boolean, date, datetime, enumerated symbol, list of
  strings, None) are the inductive `PyVal`.
* Decoded JSON response bodies are the inductive `Json` (numbers are
  modelled as integers; every `count` in this API is an integer).
* A raised Python exception is a `PyExc`, recording the exception class
  (`Exception`, `KeyError`, `TypeError`, ...) and its message; fallible
  code returns `Except PyExc _`.
* The HTTP layer is a pure function `String → HttpResponse` mapping the
  request URL to the scripted response of a mock server; the response
  carries the status code, the headers, the decoded JSON body, and (for
  the XML error branch) the attributes of the XML root element.
  A body that is not decodable JSON and malformed XML are not modelled:
  no claim exercises them.  `requests`' case-insensitive header lookup is
  modelled as exact lookup (all scenario headers are lower-case, as in
  the repository's own test mocks).
* The unbounded `while not stop` loop of `Client.get` takes explicit
  fuel; the distinguished outcome `FetchOutcome.fuelOut` marks fuel
  exhaustion and is proved unreachable in each claim's situation.
* The rate-limiter context manager (`with self._rate_limiter:`) has no
  effect on the returned data and is not modelled; the quota-telemetry
  assignments of lines 132-134 are modelled by `readRateHeaders`, which
  performs exactly the header accesses and `int()` conversions the code
  performs (their results are not stored, since no claim reads them
  back).
-/

/-- A raised Python exception: its class name and its rendered message. -/
structure PyExc where
  cls : String
  msg : String
deriving DecidableEq

def PyExc.typeError (m : String) : PyExc := ⟨"TypeError", m⟩

def PyExc.keyError (k : String) : PyExc := ⟨"KeyError", k⟩

def PyExc.valueError (m : String) : PyExc := ⟨"ValueError", m⟩

def PyExc.attributeError (m : String) : PyExc := ⟨"AttributeError", m⟩

def PyExc.zeroDivisionError : PyExc := ⟨"ZeroDivisionError", "division by zero"⟩

/-- A Python value of one of the semantic types that endpoint wrappers pass
to `URLFactory.create` (`params.items()` values).  `enum` carries the wire
value (`v.value`); every enum in `pystlouisfed/enums.py` has a string wire
value, but the payload is kept general.  `list` elements are general
`PyVal`s so that the dynamic `';'.join(v)` type error is representable. -/
inductive PyVal where
  | pynone
  | str (s : String)
  | int (n : Int)
  | bool (b : Bool)
  | date (y m d : Nat)
  | datetime (y mo d h mi : Nat)
  | enum (wire : PyVal)
  | list (xs : List PyVal)

def PyVal.isNone : PyVal → Bool
  | .pynone => true
  | _ => false

/-- A decoded JSON value (`res.json()`). -/
inductive Json where
  | null
  | bool (b : Bool)
  | num (n : Int)
  | str (s : String)
  | arr (elems : List Json)
  | obj (entries : List (String × Json))

/-- First-match association-list lookup, the model of a Python dict access
(Python dicts have unique keys, so first match is the match). -/
def alookup {α : Type} (k : String) : List (String × α) → Option α
  | [] => none
  | kv :: rest => if kv.1 = k then some kv.2 else alookup k rest

/-- `str.replace(' ', '+')`: the pattern is a single character, so the
replacement is a character map — every space becomes `+`, every other
character is untouched. -/
def replaceSpaces (s : String) : String :=
  String.mk (s.data.map (fun c => if c = ' ' then '+' else c))

/-- Is `pre` a prefix of the character list? -/
def isCharPre : List Char → List Char → Bool
  | [], _ => true
  | _ :: _, [] => false
  | p :: ps, c :: cs => p = c && isCharPre ps cs

/-- Python's `s.startswith(pre)`. -/
def pyStartsWith (s pre : String) : Bool :=
  isCharPre pre.data s.data

/-- Python's `sub in s` substring test. -/
def listContainsSub (sub : List Char) : List Char → Bool
  | [] => sub.isEmpty
  | c :: rest => isCharPre sub (c :: rest) || listContainsSub sub rest

/-- Python's `int(s)` for a plain digit run with an optional sign (leading
or trailing whitespace and underscore separators are not modelled: no
header in any scenario carries them). -/
def parseDigits : List Char → Option Nat
  | [] => none
  | ds => ds.foldl
      (fun acc c =>
        match acc with
        | none => none
        | some n => if 48 ≤ c.toNat ∧ c.toNat ≤ 57 then some (n * 10 + (c.toNat - 48)) else none)
      (some 0)

def pyParseInt (s : String) : Option Int :=
  match s.data with
  | '-' :: rest => (parseDigits rest).map (fun n => -(n : Int))
  | '+' :: rest => (parseDigits rest).map (fun n => (n : Int))
  | ds => (parseDigits ds).map (fun n => (n : Int))

/-- Split a character list at every occurrence of `sep` (the separators are
consumed; `n` separators yield `n + 1` chunks, so the empty string yields
one empty chunk, as Python's `"".split('.')` does). -/
def splitOnChar (sep : Char) : List Char → List (List Char)
  | [] => [[]]
  | c :: cs =>
    match splitOnChar sep cs with
    | [] => [[]]
    | h :: t => if c = sep then [] :: h :: t else (c :: h) :: t

/-- Python's `keys.split(".")`. -/
def pySplitDot (s : String) : List String :=
  (splitOnChar '.' s.data).map String.mk

/-- Python's `sep.join(strs)`. -/
def pyJoinStr (sep : String) : List String → String
  | [] => ""
  | [x] => x
  | x :: y :: rest => x ++ sep ++ pyJoinStr sep (y :: rest)

def pad2 (n : Nat) : String := if n < 10 then "0" ++ toString n else toString n

def pad4 (n : Nat) : String :=
  if n < 10 then "000" ++ toString n
  else if n < 100 then "00" ++ toString n
  else if n < 1000 then "0" ++ toString n
  else toString n

/-- `v.strftime('%Y%m%d%H%M')` for a datetime. -/
def fmtDatetimeCompact (y mo d h mi : Nat) : String :=
  pad4 y ++ pad2 mo ++ pad2 d ++ pad2 h ++ pad2 mi

/-- `'%s' % v`: Python's `str()` of the value, used when the final payload
string is interpolated.  `enum` cannot survive `transformValue` (it is
replaced by its wire value) and `list`/`datetime` survive only as the wire
value of an enum, which no declared-typed input produces; their renderings
here are placeholders for totality, not models of Python's `repr`. -/
def pyStr : PyVal → String
  | .pynone => "None"
  | .str s => s
  | .int n => toString n
  | .bool b => if b then "True" else "False"
  | .date y m d => pad4 y ++ "-" ++ pad2 m ++ "-" ++ pad2 d
  | .datetime y mo d h mi =>
      pad4 y ++ "-" ++ pad2 mo ++ "-" ++ pad2 d ++ " " ++ pad2 h ++ ":" ++ pad2 mi ++ ":00"
  | .enum _ => "<enum>"
  | .list _ => "[...]"

/-- Transform each element left to right, propagating the first raised
exception (the effect order of a Python loop). -/
def mapExcept {α β : Type} (g : α → Except PyExc β) : List α → Except PyExc (List β)
  | [] => .ok []
  | x :: xs => do
    let y ← g x
    let ys ← mapExcept g xs
    return y :: ys

/-- `URLFactory.SEPARATOR.join(v)` where `v` is a Python list: raises
`TypeError` unless every element is a string. -/
def pyJoinVals (sep : String) (xs : List PyVal) : Except PyExc String := do
  let strs ← mapExcept (fun v =>
    match v with
    | PyVal.str s => Except.ok s
    | _ => Except.error (PyExc.typeError "sequence item: expected str instance")) xs
  return pyJoinStr sep strs

/-- The per-entry transformation chain of `URLFactory.create` (client.py
lines 36-54).  Each `isinstance` test in the source inspects the original
value `v`, except the final string test, which inspects the already
transformed `filtered[k]`; the cases below follow that: an enum is replaced
by its wire value (then space-escaped only if that wire value is a string),
a list is joined with `;`, a boolean becomes lowercase `true`/`false`, a
datetime becomes `YYYYMMDDHHMM`, and any resulting string has its spaces
replaced with `+`.  Plain dates and integers pass through untouched. -/
def transformValue : PyVal → Except PyExc PyVal
  | .enum w =>
      match w with
      | .str s => .ok (.str (replaceSpaces s))
      | _ => .ok w
  | .list xs => do
      let s ← pyJoinVals ";" xs
      return .str (replaceSpaces s)
  | .bool b => .ok (.str (replaceSpaces (if b then "true" else "false")))
  | .datetime y mo d h mi => .ok (.str (replaceSpaces (fmtDatetimeCompact y mo d h mi)))
  | .str s => .ok (.str (replaceSpaces s))
  | v => .ok v

/-- Lines 34-54 of client.py: drop `None`-valued entries, then transform
each remaining value. -/
def transformParams (params : List (String × PyVal)) : Except PyExc (List (String × PyVal)) :=
  mapExcept (fun kv => do
    let v ← transformValue kv.2
    return (kv.1, v))
    (params.filter (fun kv => ¬ kv.2.isNone))

/-- Python's `\x7b**a, **b\x7d` dict merge: the keys of `a` in order (values
overridden by `b` where `b` has the key), then the keys of `b` not in `a`,
in order. -/
def dictMerge (a b : List (String × PyVal)) : List (String × PyVal) :=
  a.map (fun kv => (kv.1, (alookup kv.1 b).getD kv.2)) ++
    b.filter (fun kv => (alookup kv.1 a).isNone)

/-- Render each pair's value with `'%s'` interpolation. -/
def renderPairs (l : List (String × PyVal)) : List (String × String) :=
  l.map (fun kv => (kv.1, pyStr kv.2))

/-- `"&".join("%s=%s" % (k, v) for k, v in pairs)`. -/
def encodeQuery (pairs : List (String × String)) : String :=
  pyJoinStr "&" (pairs.map (fun kv => kv.1 ++ "=" ++ kv.2))

/-- The `URLFactory` state: the base URL and the fixed constant parameters
set in `__init__` (API key and output-format marker). -/
structure URLFactory where
  base : String
  fixedParams : List (String × PyVal)

/-- `URLFactory(key)`: the constructor's fixed state. -/
def URLFactory.init (key : String) : URLFactory :=
  { base := "https://api.stlouisfed.org"
    fixedParams := [("api_key", PyVal.str key), ("file_type", PyVal.str "json")] }

/-- `URLFactory.create` (client.py lines 31-61): filter out `None` values,
transform the remaining values, merge the fixed parameters first, and
serialize as `key=value` pairs joined by `&` after `base + endpoint + ?`.
The function only reads the factory's state; a `TypeError` from joining a
list with a non-string element propagates. -/
def URLFactory.create (f : URLFactory) (endpoint : String) (params : List (String × PyVal)) :
    Except PyExc String := do
  let transformed ← transformParams params
  let merged := dictMerge f.fixedParams transformed
  return f.base ++ endpoint ++ "?" ++ encodeQuery (renderPairs merged)

/-- One scripted HTTP response of a mock server.  `headers` models
`res.headers`; `body` the JSON body `res.json()` would decode; `xmlAttrs`
the attributes of the XML root element `ET.fromstring` would produce,
read only in the XML-error branch. -/
structure HttpResponse where
  status : Nat
  headers : List (String × String)
  body : Json
  xmlAttrs : List (String × String)

/-- `'%s'`-interpolation of a decoded JSON value (used for `error_code` in
an error message).  Containers are placeholders: no claim renders one. -/
def pyStrJson : Json → String
  | .null => "None"
  | .bool b => if b then "True" else "False"
  | .num n => toString n
  | .str s => s
  | .arr _ => "[...]"
  | .obj _ => "<dict>"

/-- `element.get(attr)` rendered through `'%s'`: the attribute value, or
Python's `str(None)` when the attribute is absent. -/
def xmlAttr (attrs : List (String × String)) (k : String) : String :=
  (alookup k attrs).getD "None"

def isPyWs (c : Char) : Bool :=
  c = ' ' || c = '\t' || c = '\n' || c = '\r' || c = Char.ofNat 11 || c = Char.ofNat 12

/-- Helper for `splitWsChars`: `acc` is the reversed current run of
non-whitespace characters. -/
def splitWsAux : List Char → List Char → List (List Char)
  | [], acc => if acc.isEmpty then [] else [acc.reverse]
  | c :: rest, acc =>
    if isPyWs c then
      if acc.isEmpty then splitWsAux rest []
      else acc.reverse :: splitWsAux rest []
    else splitWsAux rest (c :: acc)

/-- Python's argumentless `str.split()`: maximal runs of non-whitespace. -/
def splitWsChars (cs : List Char) : List (List Char) :=
  splitWsAux cs []

/-- `" ".join(s.split())`: collapse every whitespace run to one space and
strip the ends. -/
def normalizeWs (s : String) : String :=
  pyJoinStr " " ((splitWsChars s.data).map (fun cs => String.mk cs))

/-- `data[k]` on a decoded JSON value: a dict lookup raising `KeyError` on
a missing key, and `TypeError` when the subscripted value is a list (string
subscript), a string, or a scalar. -/
def jsonGetItem (data : Json) (k : String) : Except PyExc Json :=
  match data with
  | .obj kvs =>
      match alookup k kvs with
      | some v => .ok v
      | none => .error (PyExc.keyError k)
  | _ => .error (PyExc.typeError "indices must be integers")

/-- `k in data`: key membership for a dict, element membership for a list
(a Python string equals only an equal string), substring membership for a
string, `TypeError` for scalars. -/
def pyContains (data : Json) (k : String) : Except PyExc Bool :=
  match data with
  | .obj kvs => .ok (kvs.any (fun kv => kv.1 = k))
  | .arr xs => .ok (xs.any (fun x => match x with | .str s => s = k | _ => false))
  | .str s => .ok (listContainsSub k.data s.data)
  | _ => .error (PyExc.typeError "argument is not iterable")

/-- `len(x)` on a decoded JSON value. -/
def pyLen : Json → Except PyExc Nat
  | .arr xs => .ok xs.length
  | .str s => .ok s.length
  | .obj kvs => .ok kvs.length
  | _ => .error (PyExc.typeError "object has no len")

/-- `result += x`: the elements `list.__iadd__` would append — the list's
elements, a string's characters, a dict's keys; `TypeError` for scalars. -/
def pyIter : Json → Except PyExc (List Json)
  | .arr xs => .ok xs
  | .str s => .ok (s.data.map (fun c => Json.str (String.mk [c])))
  | .obj kvs => .ok (kvs.map (fun kv => Json.str kv.1))
  | _ => .error (PyExc.typeError "object is not iterable")

/-- `Client._deep_get` (client.py lines 157-158): fold the dotted key path
over the body; a non-dict intermediate or a missing key yields the default
`None`. -/
def deep_get (dictionary : Json) (keys : String) : Json :=
  (pySplitDot keys).foldl
    (fun d key =>
      match d with
      | .obj kvs => (alookup key kvs).getD .null
      | _ => .null)
    dictionary

/-- The response classification of `Client.get` (client.py lines 118-130),
in source order: the XML error branch, the content-type check, then (after
`res.json()`) the recognized error statuses reading `error_code` and the
whitespace-normalized `error_message` from the body, then any other
non-200 status.  Every branch raises the generic built-in `Exception`;
an absent content-type header raises `AttributeError` at the first
`startswith`.  On success the decoded body is returned. -/
def classify (res : HttpResponse) (url : String) : Except PyExc Json :=
  match alookup "content-type" res.headers with
  | none => .error (PyExc.attributeError "NoneType has no attribute startswith")
  | some ct =>
    if pyStartsWith ct "text/xml" ∧ res.status ≠ 200 then
      .error ⟨"Exception",
        "Received error code: \"" ++ xmlAttr res.xmlAttrs "code" ++
          "\" and message: \"" ++ xmlAttr res.xmlAttrs "message" ++
          "\" for URL " ++ url⟩
    else if ¬ pyStartsWith ct "application/json" then
      .error ⟨"Exception", "Unexpected content-type \"" ++ ct ++ "\" for URL " ++ url⟩
    else
      let data := res.body
      if res.status = 400 ∨ res.status = 403 ∨ res.status = 420 ∨
          res.status = 429 ∨ res.status = 500 then do
        let ec ← jsonGetItem data "error_code"
        let em ← jsonGetItem data "error_message"
        match em with
        | .str ems =>
            .error ⟨"Exception",
              "Received error code: \"" ++ pyStrJson ec ++
                "\" and message: \"" ++ normalizeWs ems ++
                "\" for URL " ++ url⟩
        | _ => .error (PyExc.attributeError "object has no attribute split")
      else if res.status ≠ 200 then
        .error ⟨"Exception",
          "Received status code: \"" ++ toString res.status ++ "\" for URL " ++ url⟩
      else
        .ok data

/-- The quota-telemetry reads of client.py lines 132-133:
`int(res.headers['x-rate-limit-limit'])` then
`int(res.headers['x-rate-limit-remaining'])` — `KeyError` when a header is
absent, `ValueError` when its value is not an integer literal. -/
def readRateHeaders (res : HttpResponse) : Except PyExc Unit := do
  match alookup "x-rate-limit-limit" res.headers with
  | none => .error (PyExc.keyError "x-rate-limit-limit")
  | some s =>
    match pyParseInt s with
    | none => .error (PyExc.valueError s)
    | some _ =>
      match alookup "x-rate-limit-remaining" res.headers with
      | none => .error (PyExc.keyError "x-rate-limit-remaining")
      | some s2 =>
        match pyParseInt s2 with
        | none => .error (PyExc.valueError s2)
        | some _ => .ok ()

/-- The outcome of one `Client.get` call: the returned list, a raised
exception, or exhaustion of the model's loop fuel. -/
inductive FetchOutcome where
  | ok (records : List Json)
  | err (e : PyExc)
  | fuelOut

/-- Line 141 of client.py: a no-`count` body is complete — the extracted
value verbatim when it is a list, else wrapped as a one-element list. -/
def wrapSingle : Json → List Json
  | .arr xs => xs
  | v => [v]

/-- The pagination parameters merged over the caller's kwargs:
`\x7b**kwargs, **\x7b'limit': limit, 'offset': offset\x7d\x7d`. -/
def pageParams (kwargs : List (String × PyVal)) (limit offset : Option Int) :
    List (String × PyVal) :=
  dictMerge kwargs
    [("limit", (limit.map PyVal.int).getD PyVal.pynone),
     ("offset", (offset.map PyVal.int).getD PyVal.pynone)]

/-- The `while not stop` loop of `Client.get` (client.py lines 101-155),
with explicit fuel.  Each iteration: build the URL (a `TypeError` there
propagates before any request is logged), record the request, classify the
response, perform the telemetry header reads, extract `list_data` at the
dotted key path, return immediately when the body has no `count`
(discarding the accumulator, as line 141 does), otherwise evaluate the
diagnostics division of line 143 (`ZeroDivisionError` when `limit == 0`,
`TypeError` when `count` is not a number), the stop condition of line 146,
the full-page offset advance of line 149, append the page, and loop unless
stopped.  `len(list_data)` is evaluated on line 149 even when `limit` is
`None` (where `len(...) == None` is `False`), so its `TypeError` fires in
both branches, as in the source.  The second component of the result is
the list of URLs actually requested. -/
def getLoop (serve : String → HttpResponse) (f : URLFactory)
    (endpoint list_key : String) (limit : Option Int)
    (kwargs : List (String × PyVal)) :
    Nat → Option Int → List Json → List String → FetchOutcome × List String
  | 0, _offset, _result, log => (.fuelOut, log)
  | Nat.succ fuel, offset, result, log =>
    match URLFactory.create f endpoint (pageParams kwargs limit offset) with
    | .error e => (.err e, log)
    | .ok url =>
      let log' := log ++ [url]
      let res := serve url
      match classify res url with
      | .error e => (.err e, log')
      | .ok data =>
        match readRateHeaders res with
        | .error e => (.err e, log')
        | .ok _ =>
          let list_data := deep_get data list_key
          match pyContains data "count" with
          | .error e => (.err e, log')
          | .ok false => (.ok (wrapSingle list_data), log')
          | .ok true =>
            match jsonGetItem data "count" with
            | .error e => (.err e, log')
            | .ok countJ =>
              match limit with
              | none =>
                match pyLen list_data with
                | .error e => (.err e, log')
                | .ok _n =>
                  match pyIter list_data with
                  | .error e => (.err e, log')
                  | .ok items => (.ok (result ++ items), log')
              | some l =>
                match countJ with
                | .num c =>
                  if l = 0 then (.err PyExc.zeroDivisionError, log')
                  else
                    match pyLen list_data with
                    | .error e => (.err e, log')
                    | .ok n =>
                      let stop := c < l ∨ (n : Int) < l
                      let offset' := if (n : Int) = l then offset.map (· + l) else offset
                      match pyIter list_data with
                      | .error e => (.err e, log')
                      | .ok items =>
                        let result' := result ++ items
                        if stop then (.ok result', log')
                        else getLoop serve f endpoint list_key limit kwargs fuel offset' result' log'
                | _ => (.err (PyExc.typeError "unsupported operand type for division"), log')

/-- `Client.get` (client.py lines 94-155): fresh per-call state —
`offset = 0` exactly when a page size is given, an empty accumulator and
request log — then the pagination loop. -/
def clientGet (serve : String → HttpResponse) (key : String)
    (endpoint list_key : String) (limit : Option Int)
    (kwargs : List (String × PyVal)) (fuel : Nat) : FetchOutcome × List String :=
  getLoop serve (URLFactory.init key) endpoint list_key limit kwargs fuel
    (if limit.isSome then some 0 else none) [] []

/-!  ## Query-string re-parsing (the spec's encode-then-parse round trip)

The spec's testable property re-parses the query string "by splitting on
`&` and `=`": split the string into chunks at every `&`, then split each
chunk at its first `=` into a key and a value. -/

/-- Split one `key=value` chunk at its first `=`; a chunk with no `=`
becomes a pair with an empty value. -/
def decodeChunk (cs : List Char) : String × String :=
  (String.mk (cs.takeWhile (fun c => c ≠ '=')),
   String.mk ((cs.dropWhile (fun c => c ≠ '=')).tail))

/-- Re-parse a query string into its key/value pairs. -/
def parseQuery (q : String) : List (String × String) :=
  (splitOnChar '&' q.data).map decodeChunk

/-- The declared semantic types of the spec's data model: string, integer,
boolean, date, datetime, enumerated symbol (whose wire value in this
repository is a string — kept as string-or-integer), and list of strings.
(`pynone` entries are the "absent" case and are dropped before encoding.) -/
def PyVal.declared : PyVal → Bool
  | .pynone => true
  | .str _ => true
  | .int _ => true
  | .bool _ => true
  | .date _ _ _ => true
  | .datetime _ _ _ _ _ => true
  | .enum (.str _) => true
  | .enum (.int _) => true
  | .enum _ => false
  | .list xs => xs.all (fun x => match x with | .str _ => true | _ => false)

/-! ## Mock-server scenarios -/

/-- The headers of a well-formed success response, as mocked by the
repository's own tests. -/
def okHeaders : List (String × String) :=
  [("content-type", "application/json"),
   ("x-rate-limit-limit", "120"),
   ("x-rate-limit-remaining", "119")]

/-- A success page whose body reports `count` and holds the records under
the key `observations`. -/
def obsPage (count : Int) (xs : List Json) : HttpResponse :=
  { status := 200, headers := okHeaders,
    body := Json.obj [("count", Json.num count), ("observations", Json.arr xs)],
    xmlAttrs := [] }

/-- The URL `Client.get` builds for `/c1/series` with `limit = 1000` at a
given offset (key `k`, no further kwargs). -/
def c1url (off : Int) : String :=
  "https://api.stlouisfed.org/c1/series?api_key=k&file_type=json&limit=1000&offset=" ++
    toString off

/-- The C1 mock: `count = 2500` served in pages of 1000 at offsets 0 and
1000 and a final page of 500 at offset 2000; the page contents are the
parameters `a`, `b`, `c`. -/
def serveC1 (a b c : List Json) (url : String) : HttpResponse :=
  if url = c1url 0 then obsPage 2500 a
  else if url = c1url 1000 then obsPage 2500 b
  else if url = c1url 2000 then obsPage 2500 c
  else { status := 404, headers := okHeaders, body := Json.null, xmlAttrs := [] }

/-- The spec's concrete pagination scenario (§8): `count = 3`, `limit = 2`,
page 1 holds two records, page 2 one. -/
def serveTiny (url : String) : HttpResponse :=
  if url = "https://api.stlouisfed.org/example/list?api_key=k&file_type=json&limit=2&offset=0" then
    { status := 200, headers := okHeaders,
      body := Json.obj [("count", Json.num 3),
        ("items", Json.arr [Json.obj [("id", Json.num 1)], Json.obj [("id", Json.num 2)]])],
      xmlAttrs := [] }
  else if url = "https://api.stlouisfed.org/example/list?api_key=k&file_type=json&limit=2&offset=2" then
    { status := 200, headers := okHeaders,
      body := Json.obj [("count", Json.num 3),
        ("items", Json.arr [Json.obj [("id", Json.num 3)]])],
      xmlAttrs := [] }
  else { status := 404, headers := okHeaders, body := Json.null, xmlAttrs := [] }

/-- A no-`count` response: the target key path resolves to a nested object
(the GeoFRED `series_data` shape), not a list. -/
def serveNoCount (_url : String) : HttpResponse :=
  { status := 200, headers := okHeaders,
    body := Json.obj [("meta", Json.obj [("data", Json.obj [("2020", Json.num 5)])])],
    xmlAttrs := [] }

/-- C4 scenario (i): status 500 with an XML body carrying `code` and
`message` attributes. -/
def serveXmlErr (_url : String) : HttpResponse :=
  { status := 500, headers := [("content-type", "text/xml")], body := Json.null,
    xmlAttrs := [("code", "500"), ("message", "internal error")] }

/-- C4 scenario (ii): status 429 with a JSON body carrying `error_code` and
`error_message`. -/
def serveJsonErr (_url : String) : HttpResponse :=
  { status := 429, headers := [("content-type", "application/json")],
    body := Json.obj [("error_code", Json.num 429),
      ("error_message", Json.str "Too   many  requests")],
    xmlAttrs := [] }

/-- C4 scenario (iii): status 200 with content-type `text/html`. -/
def serveHtml (_url : String) : HttpResponse :=
  { status := 200, headers := [("content-type", "text/html")], body := Json.null,
    xmlAttrs := [] }

/-- C6 scenario: a fully well-formed 200 JSON page whose headers lack the
`x-rate-limit-limit` / `x-rate-limit-remaining` pair. -/
def serveNoRateHeaders (_url : String) : HttpResponse :=
  { status := 200, headers := [("content-type", "application/json")],
    body := Json.obj [("count", Json.num 1), ("observations", Json.arr [Json.num 7])],
    xmlAttrs := [] }

/-! ## Theorems -/

/-- One iteration of the pagination loop on a well-formed page whose body
carries `count = c` and whose extracted records are the list `xs`: the loop
stops with the appended accumulator when `count < limit` or the page is
short, and otherwise recurses, advancing the offset by `limit` exactly when
the page held exactly `limit` records. -/
theorem getLoop_page_step (serve : String → HttpResponse) (f : URLFactory)
    (endpoint list_key : String) (l : Int) (kwargs : List (String × PyVal))
    (fuel : Nat) (offset : Option Int) (result : List Json) (log : List String)
    (url : String) (data : Json) (xs : List Json) (c : Int)
    (hurl : URLFactory.create f endpoint (pageParams kwargs (some l) offset) = Except.ok url)
    (hcl : classify (serve url) url = Except.ok data)
    (hrh : readRateHeaders (serve url) = Except.ok ())
    (hcnt : pyContains data "count" = Except.ok true)
    (hc : jsonGetItem data "count" = Except.ok (Json.num c))
    (hld : deep_get data list_key = Json.arr xs)
    (hl0 : l ≠ 0) :
    getLoop serve f endpoint list_key (some l) kwargs (fuel + 1) offset result log =
      if c < l ∨ (xs.length : Int) < l then
        (FetchOutcome.ok (result ++ xs), log ++ [url])
      else
        getLoop serve f endpoint list_key (some l) kwargs fuel
          (if (xs.length : Int) = l then offset.map (· + l) else offset)
          (result ++ xs) (log ++ [url]) := by
  simp only [getLoop, hurl, hcl, hrh, hcnt, hc, hld, pyLen, pyIter, hl0, if_false]

/-- C1: against a server reporting `count = 2500` that serves full pages of
`limit = 1000` (contents `a`, `b` and the final half page `c`), one
`Client.get` call returns exactly the 2500 records in arrival order,
issuing exactly three page requests at offsets 0, 1000 and 2000; the offset
advanced by `limit` exactly on the two full pages. -/
theorem c1_pagination_completeness (a b c : List Json)
    (ha : a.length = 1000) (hb : b.length = 1000) (hc : c.length = 500) :
    clientGet (serveC1 a b c) "k" "/c1/series" "observations" (some 1000) [] 5 =
      (FetchOutcome.ok (a ++ b ++ c), [c1url 0, c1url 1000, c1url 2000]) ∧
    (a ++ b ++ c).length = 2500 := by
  constructor
  · show getLoop _ _ _ _ _ _ 5 (some 0) [] [] = _
    rw [getLoop_page_step (serveC1 a b c) (URLFactory.init "k") "/c1/series" "observations"
      1000 [] 4 (some 0) [] [] (c1url 0)
      (Json.obj [("count", Json.num 2500), ("observations", Json.arr a)]) a 2500
      rfl rfl rfl rfl rfl rfl (by decide)]
    rw [ha]
    norm_num
    rw [getLoop_page_step (serveC1 a b c) (URLFactory.init "k") "/c1/series" "observations"
      1000 [] 3 (some 1000) a [c1url 0] (c1url 1000)
      (Json.obj [("count", Json.num 2500), ("observations", Json.arr b)]) b 2500
      rfl rfl rfl rfl rfl rfl (by decide)]
    rw [hb]
    norm_num
    rw [getLoop_page_step (serveC1 a b c) (URLFactory.init "k") "/c1/series" "observations"
      1000 [] 2 (some 2000) (a ++ b) [c1url 0, c1url 1000] (c1url 2000)
      (Json.obj [("count", Json.num 2500), ("observations", Json.arr c)]) c 2500
      rfl rfl rfl rfl rfl rfl (by decide)]
    rw [hc]
    norm_num
  · simp [ha, hb, hc]

/-- Witness for C1 at concrete page contents. -/
theorem c1_pagination_completeness_witness :
    clientGet
        (serveC1 (List.replicate 1000 (Json.num 1)) (List.replicate 1000 (Json.num 2))
          (List.replicate 500 (Json.num 3)))
        "k" "/c1/series" "observations" (some 1000) [] 5 =
      (FetchOutcome.ok
        (List.replicate 1000 (Json.num 1) ++ List.replicate 1000 (Json.num 2) ++
          List.replicate 500 (Json.num 3)),
       [c1url 0, c1url 1000, c1url 2000]) ∧
    (List.replicate 1000 (Json.num 1) ++ List.replicate 1000 (Json.num 2) ++
      List.replicate 500 (Json.num 3)).length = 2500 :=
  c1_pagination_completeness _ _ _ (List.length_replicate _ _) (List.length_replicate _ _)
    (List.length_replicate _ _)

/-- C2: with a page size set, a page that returns fewer than `limit`
records ends the fetch — the short page is appended and no further request
is issued, whatever the reported `count` says. -/
theorem c2_short_page_terminates (serve : String → HttpResponse) (f : URLFactory)
    (endpoint list_key : String) (l : Int) (kwargs : List (String × PyVal))
    (fuel : Nat) (offset : Option Int) (result : List Json) (log : List String)
    (url : String) (data : Json) (xs : List Json) (c : Int)
    (hurl : URLFactory.create f endpoint (pageParams kwargs (some l) offset) = Except.ok url)
    (hcl : classify (serve url) url = Except.ok data)
    (hrh : readRateHeaders (serve url) = Except.ok ())
    (hcnt : pyContains data "count" = Except.ok true)
    (hc : jsonGetItem data "count" = Except.ok (Json.num c))
    (hld : deep_get data list_key = Json.arr xs)
    (hl0 : l ≠ 0)
    (hshort : (xs.length : Int) < l) :
    getLoop serve f endpoint list_key (some l) kwargs (fuel + 1) offset result log =
      (FetchOutcome.ok (result ++ xs), log ++ [url]) := by
  rw [getLoop_page_step serve f endpoint list_key l kwargs fuel offset result log url data xs c
    hurl hcl hrh hcnt hc hld hl0]
  exact if_pos (Or.inr hshort)

/-- Witness for C2: the spec's concrete scenario — `count = 3`, `limit = 2`,
the second page holds a single record — stops at the second request even
though the loop has fuel for more. -/
theorem c2_short_page_terminates_witness :
    getLoop serveTiny (URLFactory.init "k") "/example/list" "items" (some 2) [] 4 (some 2)
        [Json.obj [("id", Json.num 1)], Json.obj [("id", Json.num 2)]]
        ["https://api.stlouisfed.org/example/list?api_key=k&file_type=json&limit=2&offset=0"] =
      (FetchOutcome.ok
        ([Json.obj [("id", Json.num 1)], Json.obj [("id", Json.num 2)]] ++
          [Json.obj [("id", Json.num 3)]]),
       ["https://api.stlouisfed.org/example/list?api_key=k&file_type=json&limit=2&offset=0"] ++
         ["https://api.stlouisfed.org/example/list?api_key=k&file_type=json&limit=2&offset=2"]) :=
  c2_short_page_terminates serveTiny (URLFactory.init "k") "/example/list" "items" 2 [] 3
    (some 2) _ _ _
    (Json.obj [("count", Json.num 3), ("items", Json.arr [Json.obj [("id", Json.num 3)]])])
    [Json.obj [("id", Json.num 3)]] 3
    rfl rfl rfl rfl rfl rfl (by decide) (by decide)

/-- C3: a page whose decoded body has no `count` key ends the fetch at
once: the value at the dotted key path is the complete answer — verbatim
when it is a list, wrapped in a one-element list otherwise — and the
accumulator and remaining fuel are irrelevant. -/
theorem c3_nocount_single (serve : String → HttpResponse) (f : URLFactory)
    (endpoint list_key : String) (limit : Option Int) (kwargs : List (String × PyVal))
    (fuel : Nat) (offset : Option Int) (result : List Json) (log : List String)
    (url : String) (data : Json)
    (hurl : URLFactory.create f endpoint (pageParams kwargs limit offset) = Except.ok url)
    (hcl : classify (serve url) url = Except.ok data)
    (hrh : readRateHeaders (serve url) = Except.ok ())
    (hcnt : pyContains data "count" = Except.ok false) :
    getLoop serve f endpoint list_key limit kwargs (fuel + 1) offset result log =
      (FetchOutcome.ok (wrapSingle (deep_get data list_key)), log ++ [url]) := by
  simp only [getLoop, hurl, hcl, hrh, hcnt]

/-- Witness for C3: a GeoFRED-style envelope without `count` whose key path
`meta.data` resolves to a nested object, returned as a one-element list. -/
theorem c3_nocount_single_witness :
    getLoop serveNoCount (URLFactory.init "k") "/e" "meta.data" none [] 3 none [] [] =
      (FetchOutcome.ok
        (wrapSingle (deep_get
          (Json.obj [("meta", Json.obj [("data", Json.obj [("2020", Json.num 5)])])])
          "meta.data")),
       [] ++ ["https://api.stlouisfed.org/e?api_key=k&file_type=json"]) :=
  c3_nocount_single serveNoCount (URLFactory.init "k") "/e" "meta.data" none [] 2 none [] []
    "https://api.stlouisfed.org/e?api_key=k&file_type=json"
    (Json.obj [("meta", Json.obj [("data", Json.obj [("2020", Json.num 5)])])])
    rfl rfl rfl rfl

/-- C5: when the classification of the current page fails (any of the four
error branches, including their payload sub-accesses), the whole call
raises that error — the records already accumulated in `result` from
earlier pages do not appear in the outcome. -/
theorem c5_error_discards_partial (serve : String → HttpResponse) (f : URLFactory)
    (endpoint list_key : String) (limit : Option Int) (kwargs : List (String × PyVal))
    (fuel : Nat) (offset : Option Int) (result : List Json) (log : List String)
    (url : String) (e : PyExc)
    (hurl : URLFactory.create f endpoint (pageParams kwargs limit offset) = Except.ok url)
    (hcl : classify (serve url) url = Except.error e) :
    getLoop serve f endpoint list_key limit kwargs (fuel + 1) offset result log =
      (FetchOutcome.err e, log ++ [url]) := by
  simp only [getLoop, hurl, hcl]

/-- Witness for C5: a 500 XML error on the second page of a fetch that had
already accumulated one record — the outcome drops it. -/
theorem c5_error_discards_partial_witness :
    getLoop serveXmlErr (URLFactory.init "k") "/e" "observations" none [] 2 none
        [Json.num 11] [] =
      (FetchOutcome.err ⟨"Exception",
        "Received error code: \"500\" and message: \"internal error\" for URL https://api.stlouisfed.org/e?api_key=k&file_type=json"⟩,
       [] ++ ["https://api.stlouisfed.org/e?api_key=k&file_type=json"]) :=
  c5_error_discards_partial serveXmlErr (URLFactory.init "k") "/e" "observations" none [] 1
    none [Json.num 11] [] "https://api.stlouisfed.org/e?api_key=k&file_type=json"
    ⟨"Exception",
      "Received error code: \"500\" and message: \"internal error\" for URL https://api.stlouisfed.org/e?api_key=k&file_type=json"⟩
    rfl rfl

/-- Counterexample for C4: on the three scripted responses — (i) status 500
with an XML body carrying `code`/`message` attributes, (ii) status 429 with
a JSON body carrying `error_code`/`error_message`, (iii) status 200 with
content-type `text/html` — `Client.get` raises the one generic built-in
exception class `Exception` in every case, refuting "three correspondingly
distinct error kinds ... and not a single generic exception kind". -/
theorem c4_single_generic_exception_counterexample :
    ((clientGet serveXmlErr "k" "/e" "observations" none [] 1).1 =
      FetchOutcome.err ⟨"Exception",
        "Received error code: \"500\" and message: \"internal error\" for URL https://api.stlouisfed.org/e?api_key=k&file_type=json"⟩) ∧
    ((clientGet serveJsonErr "k" "/e" "observations" none [] 1).1 =
      FetchOutcome.err ⟨"Exception",
        "Received error code: \"429\" and message: \"Too many requests\" for URL https://api.stlouisfed.org/e?api_key=k&file_type=json"⟩) ∧
    ((clientGet serveHtml "k" "/e" "observations" none [] 1).1 =
      FetchOutcome.err ⟨"Exception",
        "Unexpected content-type \"text/html\" for URL https://api.stlouisfed.org/e?api_key=k&file_type=json"⟩) :=
  ⟨rfl, rfl, rfl⟩

/-- C4 (amended): the three scripted responses take three distinct
classification branches and each raises an error whose message carries the
branch's specified payload plus the URL — the (i) XML `code`/`message`
pair, the (ii) JSON `error_code` with the whitespace-normalized
`error_message`, the (iii) observed content-type — and the three messages
are pairwise distinct; but all three are raised as the single generic
exception class `Exception`. -/
theorem c4_error_classification_by_message :
    ((clientGet serveXmlErr "k" "/e" "observations" none [] 1).1 =
      FetchOutcome.err
        (PyExc.mk "Exception"
          ("Received error code: \"" ++ "500" ++ "\" and message: \"" ++ "internal error" ++
            "\" for URL " ++ "https://api.stlouisfed.org/e?api_key=k&file_type=json"))) ∧
    ((clientGet serveJsonErr "k" "/e" "observations" none [] 1).1 =
      FetchOutcome.err
        (PyExc.mk "Exception"
          ("Received error code: \"" ++ "429" ++ "\" and message: \"" ++
            normalizeWs "Too   many  requests" ++
            "\" for URL " ++ "https://api.stlouisfed.org/e?api_key=k&file_type=json"))) ∧
    ((clientGet serveHtml "k" "/e" "observations" none [] 1).1 =
      FetchOutcome.err
        (PyExc.mk "Exception"
          ("Unexpected content-type \"" ++ "text/html" ++ "\" for URL " ++
            "https://api.stlouisfed.org/e?api_key=k&file_type=json"))) ∧
    ("Received error code: \"500\" and message: \"internal error\" for URL https://api.stlouisfed.org/e?api_key=k&file_type=json" ≠
      "Received error code: \"429\" and message: \"Too many requests\" for URL https://api.stlouisfed.org/e?api_key=k&file_type=json") ∧
    ("Received error code: \"429\" and message: \"Too many requests\" for URL https://api.stlouisfed.org/e?api_key=k&file_type=json" ≠
      "Unexpected content-type \"text/html\" for URL https://api.stlouisfed.org/e?api_key=k&file_type=json") ∧
    ("Received error code: \"500\" and message: \"internal error\" for URL https://api.stlouisfed.org/e?api_key=k&file_type=json" ≠
      "Unexpected content-type \"text/html\" for URL https://api.stlouisfed.org/e?api_key=k&file_type=json") :=
  ⟨rfl, rfl, rfl, by decide, by decide, by decide⟩

/-- Counterexample for C6: a fully well-formed 200 JSON page whose response
lacks the `x-rate-limit-limit` / `x-rate-limit-remaining` headers makes
`Client.get` raise `KeyError` instead of completing — refuting "their
absence never makes a fetch fail". -/
theorem c6_missing_rate_headers_counterexample :
    clientGet serveNoRateHeaders "k" "/e" "observations" none [] 1 =
      (FetchOutcome.err ⟨"KeyError", "x-rate-limit-limit"⟩,
       ["https://api.stlouisfed.org/e?api_key=k&file_type=json"]) :=
  rfl

/-- C6 (amended): the `x-rate-limit-limit` header is required on every
successfully classified page: `Client.get` reads it unconditionally with a
dict index, so a response lacking it aborts the fetch with `KeyError`
regardless of everything else in the page. -/
theorem c6_rate_headers_required (serve : String → HttpResponse) (f : URLFactory)
    (endpoint list_key : String) (limit : Option Int) (kwargs : List (String × PyVal))
    (fuel : Nat) (offset : Option Int) (result : List Json) (log : List String)
    (url : String) (data : Json)
    (hurl : URLFactory.create f endpoint (pageParams kwargs limit offset) = Except.ok url)
    (hcl : classify (serve url) url = Except.ok data)
    (hmiss : alookup "x-rate-limit-limit" (serve url).headers = none) :
    getLoop serve f endpoint list_key limit kwargs (fuel + 1) offset result log =
      (FetchOutcome.err (PyExc.keyError "x-rate-limit-limit"), log ++ [url]) := by
  simp only [getLoop, hurl, hcl, readRateHeaders, hmiss]

/-- Witness for the amended C6. -/
theorem c6_rate_headers_required_witness :
    getLoop serveNoRateHeaders (URLFactory.init "k") "/e" "observations" none [] 5 none [] [] =
      (FetchOutcome.err (PyExc.keyError "x-rate-limit-limit"),
       [] ++ ["https://api.stlouisfed.org/e?api_key=k&file_type=json"]) :=
  c6_rate_headers_required serveNoRateHeaders (URLFactory.init "k") "/e" "observations" none []
    4 none [] [] "https://api.stlouisfed.org/e?api_key=k&file_type=json"
    (Json.obj [("count", Json.num 1), ("observations", Json.arr [Json.num 7])])
    rfl rfl rfl

/-- Splitting never yields the empty chunk list. -/
theorem splitOnChar_ne_nil (sep : Char) (cs : List Char) : splitOnChar sep cs ≠ [] := by
  induction cs with
  | nil => simp [splitOnChar]
  | cons c cs ih =>
    simp only [splitOnChar]
    rcases h : splitOnChar sep cs with _ | ⟨hd, tl⟩
    · simp
    · simp only [h]
      split <;> simp

/-- A separator-free list is a single chunk. -/
theorem splitOnChar_of_not_mem (sep : Char) (cs : List Char) (h : sep ∉ cs) :
    splitOnChar sep cs = [cs] := by
  induction cs with
  | nil => rfl
  | cons c cs ih =>
    simp only [List.mem_cons, not_or] at h
    simp only [splitOnChar, ih h.2]
    rw [if_neg (show ¬ c = sep from fun hc => h.1 hc.symm)]

/-- Splitting peels off one separator-free chunk at a time. -/
theorem splitOnChar_append (sep : Char) (xs ys : List Char) (h : sep ∉ xs) :
    splitOnChar sep (xs ++ sep :: ys) = xs :: splitOnChar sep ys := by
  induction xs with
  | nil =>
    simp only [List.nil_append, splitOnChar]
    rcases hy : splitOnChar sep ys with _ | ⟨hd, tl⟩
    · exact absurd hy (splitOnChar_ne_nil sep ys)
    · simp
  | cons x xs ih =>
    simp only [List.mem_cons, not_or] at h
    simp only [List.cons_append, splitOnChar, List.append_eq, ih h.2]
    rw [if_neg (show ¬ x = sep from fun hc => h.1 hc.symm)]

theorem takeWhile_append_stop (p : Char → Bool) (xs : List Char) (y : Char) (ys : List Char)
    (hxs : ∀ x ∈ xs, p x) (hy : ¬ p y) :
    (xs ++ y :: ys).takeWhile p = xs := by
  induction xs with
  | nil => simp [List.takeWhile, hy]
  | cons x xs ih =>
    simp only [List.cons_append, List.takeWhile]
    rw [hxs x (by simp)]
    simp [ih (fun a ha => hxs a (by simp [ha]))]

theorem dropWhile_append_stop (p : Char → Bool) (xs : List Char) (y : Char) (ys : List Char)
    (hxs : ∀ x ∈ xs, p x) (hy : ¬ p y) :
    (xs ++ y :: ys).dropWhile p = y :: ys := by
  induction xs with
  | nil => simp [List.dropWhile, hy]
  | cons x xs ih =>
    simp only [List.cons_append, List.dropWhile]
    rw [hxs x (by simp)]
    simp [ih (fun a ha => hxs a (by simp [ha]))]

theorem chunk_data (k v : String) : (k ++ "=" ++ v).data = k.data ++ '=' :: v.data := by
  simp [String.data_append]

theorem amp_data (x j : String) : (x ++ "&" ++ j).data = x.data ++ '&' :: j.data := by
  simp [String.data_append]

/-- Decoding a `key=value` chunk whose key holds no `=` recovers the pair
(a `=` inside the value stays in the value, as Python's split-at-first-`=`
does). -/
theorem decodeChunk_encode (k v : String) (hk : '=' ∉ k.data) :
    decodeChunk (k.data ++ '=' :: v.data) = (k, v) := by
  simp only [decodeChunk]
  rw [takeWhile_append_stop _ _ _ _
      (fun x hx => by
        simp only [ne_eq, decide_eq_true_eq]
        exact fun he => hk (he ▸ hx))
      (by simp),
    dropWhile_append_stop _ _ _ _
      (fun x hx => by
        simp only [ne_eq, decide_eq_true_eq]
        exact fun he => hk (he ▸ hx))
      (by simp)]
  rfl

/-- The encode-then-parse round trip on rendered pairs: when no key or
value holds `&` and no key holds `=`, re-parsing the joined query string
recovers exactly the pairs. -/
theorem parse_encode (pairs : List (String × String))
    (hclean : ∀ kv ∈ pairs, ('&' ∉ kv.1.data ∧ '&' ∉ kv.2.data) ∧ '=' ∉ kv.1.data)
    (hne : pairs ≠ []) :
    parseQuery (encodeQuery pairs) = pairs := by
  induction pairs with
  | nil => exact absurd rfl hne
  | cons p rest ih =>
    have hp := hclean p (by simp)
    have hchunk : '&' ∉ (p.1 ++ "=" ++ p.2).data := by
      rw [chunk_data]
      simp only [List.mem_append, List.mem_cons, not_or]
      exact ⟨hp.1.1, by decide, hp.1.2⟩
    rcases rest with _ | ⟨q, rest⟩
    · simp only [parseQuery, encodeQuery, List.map, pyJoinStr]
      rw [splitOnChar_of_not_mem '&' _ hchunk]
      simp only [List.map, chunk_data]
      rw [decodeChunk_encode p.1 p.2 hp.2]
    · have ihr := ih (fun kv hkv => hclean kv (by simp [hkv])) (by simp)
      simp only [parseQuery, encodeQuery, List.map, pyJoinStr] at ihr ⊢
      rw [amp_data, splitOnChar_append '&' _ _ hchunk]
      simp only [List.map, chunk_data]
      rw [decodeChunk_encode p.1 p.2 hp.2, ihr]

/-- A key absent from the key column is not found. -/
theorem alookup_eq_none {α : Type} (k : String) (l : List (String × α))
    (h : k ∉ l.map Prod.fst) : alookup k l = none := by
  induction l with
  | nil => rfl
  | cons kv rest ih =>
    simp only [List.map, List.mem_cons, not_or] at h
    simp only [alookup]
    rw [if_neg (fun hc => h.1 hc.symm)]
    exact ih h.2

/-- With disjoint key sets, the Python dict merge is plain concatenation. -/
theorem dictMerge_append (a b : List (String × PyVal))
    (hd1 : ∀ k ∈ a.map Prod.fst, k ∉ b.map Prod.fst)
    (hd2 : ∀ k ∈ b.map Prod.fst, k ∉ a.map Prod.fst) :
    dictMerge a b = a ++ b := by
  unfold dictMerge
  have h1 : ∀ (l : List (String × PyVal)), (∀ k ∈ l.map Prod.fst, k ∉ b.map Prod.fst) →
      l.map (fun kv => (kv.1, (alookup kv.1 b).getD kv.2)) = l := by
    intro l hl
    induction l with
    | nil => rfl
    | cons kv rest ih =>
      simp only [List.map]
      rw [alookup_eq_none kv.1 b (hl kv.1 (by simp))]
      rw [ih (fun k hk => hl k (by simp [hk]))]
      rfl
  have h2 : b.filter (fun kv => (alookup kv.1 a).isNone) = b := by
    rw [List.filter_eq_self]
    intro kv hkv
    rw [alookup_eq_none kv.1 a (hd2 kv.1 (List.mem_map_of_mem Prod.fst hkv))]
    rfl
  rw [h1 a hd1, h2]

/-- `URLFactory.create` after a successful transformation pass: the fixed
parameters merged before the transformed ones, serialized after
`base + endpoint + ?`. -/
theorem create_eq_of_transform (f : URLFactory) (endpoint : String)
    (params tp : List (String × PyVal))
    (ht : transformParams params = Except.ok tp) :
    URLFactory.create f endpoint params =
      Except.ok (f.base ++ endpoint ++ "?" ++
        encodeQuery (renderPairs (dictMerge f.fixedParams tp))) := by
  simp [URLFactory.create, ht]

/-- Counterexample for C7: a parameter value containing `&` is embedded
unescaped, so re-parsing the query string splits it into a spurious extra
pair — the round trip does not hold for every parameter mapping. -/
theorem c7_roundtrip_counterexample :
    URLFactory.create (URLFactory.init "k") "/e" [("a", PyVal.str "x&y")] =
      Except.ok "https://api.stlouisfed.org/e?api_key=k&file_type=json&a=x&y" ∧
    parseQuery "api_key=k&file_type=json&a=x&y" =
      [("api_key", "k"), ("file_type", "json"), ("a", "x"), ("y", "")] ∧
    [("api_key", "k"), ("file_type", "json"), ("a", "x"), ("y", "")] ≠
      [("api_key", "k"), ("file_type", "json"), ("a", "x&y")] :=
  ⟨rfl, rfl, by decide⟩

/-- C7 (amended): for parameter mappings whose transformed keys and values
contain no `&` and whose keys contain no `=` and do not collide with the
fixed parameter keys, `create` produces `base + endpoint + ?` followed by
the fixed pairs and then the transformed pairs in insertion order, and
re-parsing that query string yields exactly those pairs — no extras, no
omissions. -/
theorem c7_encode_parse_roundtrip (f : URLFactory) (endpoint : String)
    (params tp : List (String × PyVal))
    (ht : transformParams params = Except.ok tp)
    (hd1 : ∀ k ∈ f.fixedParams.map Prod.fst, k ∉ tp.map Prod.fst)
    (hd2 : ∀ k ∈ tp.map Prod.fst, k ∉ f.fixedParams.map Prod.fst)
    (hclean : ∀ kv ∈ renderPairs f.fixedParams ++ renderPairs tp,
      ('&' ∉ kv.1.data ∧ '&' ∉ kv.2.data) ∧ '=' ∉ kv.1.data)
    (hne : f.fixedParams ≠ []) :
    URLFactory.create f endpoint params =
      Except.ok (f.base ++ endpoint ++ "?" ++
        encodeQuery (renderPairs f.fixedParams ++ renderPairs tp)) ∧
    parseQuery (encodeQuery (renderPairs f.fixedParams ++ renderPairs tp)) =
      renderPairs f.fixedParams ++ renderPairs tp := by
  have hmerge : dictMerge f.fixedParams tp = f.fixedParams ++ tp :=
    dictMerge_append _ _ hd1 hd2
  constructor
  · rw [create_eq_of_transform f endpoint params tp ht, hmerge]
    simp [renderPairs]
  · apply parse_encode _ hclean
    intro h
    rcases List.append_eq_nil.mp h with ⟨h1, _⟩
    exact hne (by simpa [renderPairs] using h1)

/-- Witness for the amended C7. -/
theorem c7_encode_parse_roundtrip_witness :
    URLFactory.create (URLFactory.init "k") "/fred/series"
        [("search_text", PyVal.str "a b"), ("limit", PyVal.int 5), ("tag", PyVal.pynone)] =
      Except.ok "https://api.stlouisfed.org/fred/series?api_key=k&file_type=json&search_text=a+b&limit=5" ∧
    parseQuery "api_key=k&file_type=json&search_text=a+b&limit=5" =
      [("api_key", "k"), ("file_type", "json"), ("search_text", "a+b"), ("limit", "5")] :=
  c7_encode_parse_roundtrip (URLFactory.init "k") "/fred/series"
    [("search_text", PyVal.str "a b"), ("limit", PyVal.int 5), ("tag", PyVal.pynone)]
    [("search_text", PyVal.str "a+b"), ("limit", PyVal.int 5)]
    rfl (by decide) (by decide) (by decide) (by simp [URLFactory.init])

theorem exc_bind_ok {α β : Type} (a : α) (f : α → Except PyExc β) :
    (Except.ok a >>= f) = f a := rfl

theorem exc_bind_error {α β : Type} (e : PyExc) (f : α → Except PyExc β) :
    ((Except.error e : Except PyExc α) >>= f) = Except.error e := rfl

theorem exc_pure {α : Type} (a : α) : (pure a : Except PyExc α) = Except.ok a := rfl

/-- A per-entry value transformation keeps the key column. -/
theorem mapExcept_keys (g : PyVal → Except PyExc PyVal)
    (l : List (String × PyVal)) (tp : List (String × PyVal))
    (h : mapExcept (fun kv => do let v ← g kv.2; return (kv.1, v)) l = Except.ok tp) :
    tp.map Prod.fst = l.map Prod.fst := by
  induction l generalizing tp with
  | nil =>
    simp only [mapExcept] at h
    cases h
    rfl
  | cons kv rest ih =>
    simp only [mapExcept] at h
    rcases hg : g kv.2 with e | v <;> rw [hg] at h
    · simp only [exc_bind_error] at h
      cases h
    · rcases hrest : mapExcept (fun kv => do let v ← g kv.2; return (kv.1, v)) rest with e | ys <;>
        rw [hrest] at h
      · simp only [exc_bind_ok, exc_bind_error, Except.map_error] at h
        cases h
      · simp only [exc_pure, exc_bind_ok, exc_bind_error, Except.map_ok, Except.ok.injEq] at h
        subst h
        simp [ih ys hrest]

/-- A successfully transformed element is in the output. -/
theorem mapExcept_mem {α β : Type} (g : α → Except PyExc β) (l : List α) (l' : List β)
    (h : mapExcept g l = Except.ok l') (a : α) (ha : a ∈ l) (b : β) (hb : g a = Except.ok b) :
    b ∈ l' := by
  induction l generalizing l' with
  | nil => cases ha
  | cons x rest ih =>
    simp only [mapExcept] at h
    rcases hg : g x with e | y <;> rw [hg] at h
    · simp only [exc_bind_error] at h
      cases h
    · rcases hrest : mapExcept g rest with e | ys <;> rw [hrest] at h
      · simp only [exc_bind_ok, exc_bind_error, Except.map_error] at h
        cases h
      · simp only [exc_pure, exc_bind_ok, Except.map_ok, Except.ok.injEq] at h
        subst h
        rcases List.mem_cons.mp ha with rfl | hmem
        · rw [hb] at hg
          cases hg
          exact List.mem_cons_self _ _
        · exact List.mem_cons_of_mem _ (ih ys hrest hmem)

/-- With a duplicate-free key column, lookup finds a member's value. -/
theorem alookup_of_mem_nodup {α : Type} (k : String) (v : α) (l : List (String × α))
    (h : (k, v) ∈ l) (hn : (l.map Prod.fst).Nodup) : alookup k l = some v := by
  induction l with
  | nil => cases h
  | cons kv rest ih =>
    simp only [List.map, List.nodup_cons] at hn
    rcases List.mem_cons.mp h with rfl | hmem
    · simp [alookup]
    · simp only [alookup]
      rw [if_neg (show ¬ kv.1 = k from
        fun hc => hn.1 (hc ▸ List.mem_map_of_mem Prod.fst hmem))]
      exact ih hmem hn.2

/-- A member of `b` (with duplicate-free keys) survives the Python dict
merge, whether or not its key also occurs in `a`. -/
theorem mem_dictMerge (a b : List (String × PyVal)) (k : String) (v : PyVal)
    (hb : (k, v) ∈ b) (hnb : (b.map Prod.fst).Nodup) : (k, v) ∈ dictMerge a b := by
  unfold dictMerge
  by_cases hk : k ∈ a.map Prod.fst
  · rcases List.mem_map.mp hk with ⟨kv, hkv, hfst⟩
    apply List.mem_append_left
    apply List.mem_map.mpr
    refine ⟨kv, hkv, ?_⟩
    rw [hfst, alookup_of_mem_nodup k v b hb hnb]
    rfl
  · apply List.mem_append_right
    apply List.mem_filter.mpr
    refine ⟨hb, ?_⟩
    rw [alookup_eq_none k a hk]
    rfl

/-- The transformation pass keeps the filtered key column. -/
theorem transformParams_keys (params tp : List (String × PyVal))
    (h : transformParams params = Except.ok tp) :
    tp.map Prod.fst = (params.filter (fun kv => ¬ kv.2.isNone)).map Prod.fst :=
  mapExcept_keys transformValue _ tp h

/-- A string-valued entry passes the transformation with its spaces turned
into `+`. -/
theorem transformParams_mem_str (params tp : List (String × PyVal)) (k s : String)
    (h : transformParams params = Except.ok tp) (hmem : (k, PyVal.str s) ∈ params) :
    (k, PyVal.str (replaceSpaces s)) ∈ tp := by
  apply mapExcept_mem _ _ _ h (k, PyVal.str s)
  · exact List.mem_filter.mpr ⟨hmem, by simp [PyVal.isNone]⟩
  · rfl

/-- Every rendered pair appears contiguously as `key=value` inside the
joined query string. -/
theorem mem_encodeQuery (pairs : List (String × String)) (kv : String × String)
    (h : kv ∈ pairs) :
    ∃ p q, encodeQuery pairs = p ++ (kv.1 ++ "=" ++ kv.2) ++ q := by
  induction pairs with
  | nil => cases h
  | cons hd rest ih =>
    rcases List.mem_cons.mp h with rfl | hmem
    · rcases rest with _ | ⟨y, t⟩
      · refine ⟨"", "", ?_⟩
        apply String.ext
        simp [encodeQuery, pyJoinStr, String.data_append]
      · refine ⟨"", "&" ++ encodeQuery (y :: t), ?_⟩
        apply String.ext
        simp [encodeQuery, pyJoinStr, String.data_append, List.append_assoc]
    · rcases rest with _ | ⟨y, t⟩
      · cases hmem
      · obtain ⟨p, q, hpq⟩ := ih hmem
        refine ⟨(hd.1 ++ "=" ++ hd.2) ++ "&" ++ p, q, ?_⟩
        apply String.ext
        have hd' := congrArg String.data hpq
        simp only [String.data_append] at hd'
        simp [encodeQuery, pyJoinStr, String.data_append, List.append_assoc] at hd' ⊢
        simp [hd']

/-- C8: a string-valued parameter containing spaces appears in the built
URL as its `key=value` chunk with every space replaced by `+` and every
other character untouched (the value is mapped character-wise, changing
exactly the spaces). -/
theorem c8_whitespace_law (f : URLFactory) (endpoint : String)
    (params : List (String × PyVal)) (k s url : String)
    (hmem : (k, PyVal.str s) ∈ params)
    (hnodup : (params.map Prod.fst).Nodup)
    (hok : URLFactory.create f endpoint params = Except.ok url) :
    ∃ p q, url =
      p ++ (k ++ "=" ++ String.mk (s.data.map (fun c => if c = ' ' then '+' else c))) ++ q := by
  rcases htp : transformParams params with e | tp
  · rw [URLFactory.create, htp] at hok
    simp only [exc_bind_error] at hok
    cases hok
  · have hurl : url = f.base ++ endpoint ++ "?" ++
        encodeQuery (renderPairs (dictMerge f.fixedParams tp)) := by
      rw [create_eq_of_transform f endpoint params tp htp] at hok
      injection hok with h
      exact h.symm
    have h1 : (k, PyVal.str (replaceSpaces s)) ∈ tp :=
      transformParams_mem_str params tp k s htp hmem
    have hnodup_tp : (tp.map Prod.fst).Nodup := by
      rw [transformParams_keys params tp htp]
      exact ((List.filter_sublist params).map Prod.fst).nodup hnodup
    have h2 : (k, PyVal.str (replaceSpaces s)) ∈ dictMerge f.fixedParams tp :=
      mem_dictMerge _ _ _ _ h1 hnodup_tp
    have h3 : (k, replaceSpaces s) ∈ renderPairs (dictMerge f.fixedParams tp) :=
      List.mem_map.mpr ⟨(k, PyVal.str (replaceSpaces s)), h2, rfl⟩
    obtain ⟨p, q, hpq⟩ := mem_encodeQuery _ _ h3
    refine ⟨f.base ++ endpoint ++ "?" ++ p, q, ?_⟩
    rw [hurl, hpq]
    apply String.ext
    simp [String.data_append, List.append_assoc, replaceSpaces]

/-- Witness for C8 on `search_text = "gross domestic"`. -/
theorem c8_whitespace_law_witness :
    ∃ p q,
      "https://api.stlouisfed.org/e?api_key=k&file_type=json&search_text=gross+domestic" =
        p ++ ("search_text" ++ "=" ++
          String.mk (("gross domestic").data.map (fun c => if c = ' ' then '+' else c))) ++ q :=
  c8_whitespace_law (URLFactory.init "k") "/e" [("search_text", PyVal.str "gross domestic")]
    "search_text" "gross domestic"
    "https://api.stlouisfed.org/e?api_key=k&file_type=json&search_text=gross+domestic"
    (by simp) (by simp) rfl

/-- Element-wise totality lifts to the whole transformation pass. -/
theorem mapExcept_total {α β : Type} (g : α → Except PyExc β) (l : List α)
    (h : ∀ a ∈ l, ∃ b, g a = Except.ok b) : ∃ l', mapExcept g l = Except.ok l' := by
  induction l with
  | nil => exact ⟨[], rfl⟩
  | cons x rest ih =>
    obtain ⟨b, hb⟩ := h x (by simp)
    obtain ⟨l', hl'⟩ := ih (fun a ha => h a (by simp [ha]))
    exact ⟨b :: l', by simp [mapExcept, hb, hl', exc_bind_ok, exc_pure]⟩

/-- The transformation chain raises no exception on any value of the
declared semantic types (the only fallible step, joining a list, succeeds
because a declared list holds only strings). -/
theorem transformValue_total (v : PyVal) (hv : v.declared = true) :
    ∃ w, transformValue v = Except.ok w := by
  cases v with
  | pynone => exact ⟨_, rfl⟩
  | str s => exact ⟨_, rfl⟩
  | int n => exact ⟨_, rfl⟩
  | bool b => exact ⟨_, rfl⟩
  | date y m d => exact ⟨_, rfl⟩
  | datetime y mo d h mi => exact ⟨_, rfl⟩
  | enum w =>
    cases w with
    | str s => exact ⟨_, rfl⟩
    | int n => exact ⟨_, rfl⟩
    | pynone => simp [PyVal.declared] at hv
    | bool b => simp [PyVal.declared] at hv
    | date y m d => simp [PyVal.declared] at hv
    | datetime y mo d h mi => simp [PyVal.declared] at hv
    | enum w2 => simp [PyVal.declared] at hv
    | list xs => simp [PyVal.declared] at hv
  | list xs =>
    simp only [PyVal.declared] at hv
    have hjoin : ∃ strs, mapExcept (fun v =>
        match v with
        | PyVal.str s => Except.ok s
        | _ => Except.error (PyExc.typeError "sequence item: expected str instance")) xs =
        Except.ok strs := by
      apply mapExcept_total
      intro a ha
      have := (List.all_eq_true.mp hv) a ha
      cases a <;> simp at this
      case str s => exact ⟨s, rfl⟩
    obtain ⟨strs, hstrs⟩ := hjoin
    refine ⟨PyVal.str (replaceSpaces (pyJoinStr ";" strs)), ?_⟩
    simp [transformValue, pyJoinVals, hstrs, exc_bind_ok, exc_pure]

/-- C9: on every parameter mapping whose values are drawn from the
declared semantic types, `URLFactory.create` is total — it returns a URL
and raises nothing.  (In this embedding `create` is a pure function of the
factory value, so it performs no network access and cannot change the
factory's base URL or fixed parameters.) -/
theorem c9_create_total (f : URLFactory) (endpoint : String)
    (params : List (String × PyVal))
    (h : ∀ kv ∈ params, kv.2.declared = true) :
    ∃ url, URLFactory.create f endpoint params = Except.ok url := by
  obtain ⟨tp, htp⟩ := mapExcept_total
    (fun kv => do let v ← transformValue kv.2; return (kv.1, v))
    (params.filter (fun kv => ¬ kv.2.isNone))
    (fun kv hkv => by
      obtain ⟨w, hw⟩ := transformValue_total kv.2 (h kv (List.mem_filter.mp hkv).1)
      exact ⟨(kv.1, w), by simp [hw, exc_bind_ok, exc_pure]⟩)
  exact ⟨_, create_eq_of_transform f endpoint params tp htp⟩

/-- Witness for C9 over one value of every declared semantic type. -/
theorem c9_create_total_witness :
    ∃ url, URLFactory.create (URLFactory.init "k") "/e"
      [("a", PyVal.str "x y"), ("b", PyVal.int 3), ("c", PyVal.bool true),
       ("d", PyVal.date 2022 5 3), ("e", PyVal.datetime 2018 3 2 2 20),
       ("f", PyVal.enum (PyVal.str "desc")), ("g", PyVal.list [PyVal.str "u", PyVal.str "v"]),
       ("h", PyVal.pynone)] = Except.ok url :=
  c9_create_total (URLFactory.init "k") "/e" _
    (by simp [List.forall_mem_cons, PyVal.declared])

/-- With no page size the loop body runs exactly once: whatever the single
response holds, the iteration ends in a return or a raise — never in
another request and never by exhausting fuel. -/
theorem getLoop_none_one_request (serve : String → HttpResponse) (f : URLFactory)
    (endpoint list_key : String) (kwargs : List (String × PyVal)) (fuel : Nat)
    (result : List Json) (log : List String) (url : String)
    (hurl : URLFactory.create f endpoint (pageParams kwargs none none) = Except.ok url) :
    ∃ out, getLoop serve f endpoint list_key none kwargs (fuel + 1) none result log =
        (out, log ++ [url]) ∧ out ≠ FetchOutcome.fuelOut := by
  rcases hcl : classify (serve url) url with e | data
  · exact ⟨FetchOutcome.err e, by simp only [getLoop, hurl, hcl], by rintro ⟨⟩⟩
  · rcases hrh : readRateHeaders (serve url) with e | u
    · exact ⟨FetchOutcome.err e, by simp only [getLoop, hurl, hcl, hrh], by rintro ⟨⟩⟩
    · cases u
      rcases hcnt : pyContains data "count" with e | b
      · exact ⟨FetchOutcome.err e, by simp only [getLoop, hurl, hcl, hrh, hcnt], by rintro ⟨⟩⟩
      · cases b
        · exact ⟨FetchOutcome.ok (wrapSingle (deep_get data list_key)),
            by simp only [getLoop, hurl, hcl, hrh, hcnt], by rintro ⟨⟩⟩
        · rcases hci : jsonGetItem data "count" with e | countJ
          · exact ⟨FetchOutcome.err e,
              by simp only [getLoop, hurl, hcl, hrh, hcnt, hci], by rintro ⟨⟩⟩
          · rcases hlen : pyLen (deep_get data list_key) with e | n
            · exact ⟨FetchOutcome.err e,
                by simp only [getLoop, hurl, hcl, hrh, hcnt, hci, hlen], by rintro ⟨⟩⟩
            · rcases hit : pyIter (deep_get data list_key) with e | items
              · exact ⟨FetchOutcome.err e,
                  by simp only [getLoop, hurl, hcl, hrh, hcnt, hci, hlen, hit], by rintro ⟨⟩⟩
              · exact ⟨FetchOutcome.ok (result ++ items),
                  by simp only [getLoop, hurl, hcl, hrh, hcnt, hci, hlen, hit], by rintro ⟨⟩⟩

/-- With `limit = None` both pagination entries are merged in as `None`
and dropped before encoding, so no transformed pair keeps the key `limit`
or `offset` (a caller-supplied entry under either key is overwritten by
`None` in the merge). -/
theorem pageParams_none_keys (kwargs tp : List (String × PyVal))
    (ht : transformParams (pageParams kwargs none none) = Except.ok tp) :
    ∀ kv ∈ tp, kv.1 ≠ "limit" ∧ kv.1 ≠ "offset" := by
  intro kv hkv
  have hkeys := transformParams_keys _ _ ht
  have h1 : kv.1 ∈ ((pageParams kwargs none none).filter
      (fun kv => ¬ kv.2.isNone)).map Prod.fst := by
    rw [← hkeys]
    exact List.mem_map_of_mem Prod.fst hkv
  rcases List.mem_map.mp h1 with ⟨kv', hkv', hfst⟩
  rcases List.mem_filter.mp hkv' with ⟨hmem, hpred⟩
  simp only [decide_eq_true_eq] at hpred
  have hval : kv'.1 = "limit" ∨ kv'.1 = "offset" → kv'.2 = PyVal.pynone := by
    intro hk
    simp only [pageParams, Option.map_none, Option.getD_none, dictMerge] at hmem
    rcases List.mem_append.mp hmem with hmapp | hfilt
    · rcases List.mem_map.mp hmapp with ⟨kv0, hkv0, heq⟩
      subst heq
      rcases hk with h | h <;> simp only at h <;> rw [h] <;> simp [alookup]
    · have hb := (List.mem_filter.mp hfilt).1
      simp only [List.mem_cons, List.not_mem_nil, or_false] at hb
      rcases hb with rfl | rfl <;> rfl
  constructor
  · intro heq
    exact hpred (by simp [hval (Or.inl (by rw [hfst, heq])), PyVal.isNone])
  · intro heq
    exact hpred (by simp [hval (Or.inr (by rw [hfst, heq])), PyVal.isNone])

/-- Every key of a merged dict comes from one of the two sides. -/
theorem dictMerge_keys_sub (a b : List (String × PyVal)) :
    ∀ kv ∈ dictMerge a b, kv.1 ∈ a.map Prod.fst ∨ kv.1 ∈ b.map Prod.fst := by
  intro kv hkv
  unfold dictMerge at hkv
  rcases List.mem_append.mp hkv with hmapp | hfilt
  · rcases List.mem_map.mp hmapp with ⟨kv0, hkv0, heq⟩
    subst heq
    exact Or.inl (show kv0.1 ∈ a.map Prod.fst from List.mem_map_of_mem Prod.fst hkv0)
  · exact Or.inr (List.mem_map_of_mem Prod.fst (List.mem_filter.mp hfilt).1)

/-- C10: a `Client.get` call with `limit = None` issues exactly one HTTP
request — the loop stops after the first page however much fuel remains —
and that request's URL is built from query pairs none of which carry the
key `limit` or `offset`, because both entries are `None` and dropped
before encoding. -/
theorem c10_none_limit_single_request (serve : String → HttpResponse)
    (key endpoint list_key : String)
    (kwargs tp : List (String × PyVal)) (fuel : Nat)
    (ht : transformParams (pageParams kwargs none none) = Except.ok tp) :
    ∃ out,
      clientGet serve key endpoint list_key none kwargs (fuel + 1) =
        (out, [(URLFactory.init key).base ++ endpoint ++ "?" ++
          encodeQuery (renderPairs (dictMerge (URLFactory.init key).fixedParams tp))]) ∧
      out ≠ FetchOutcome.fuelOut ∧
      (∀ kv ∈ dictMerge (URLFactory.init key).fixedParams tp,
        kv.1 ≠ "limit" ∧ kv.1 ≠ "offset") := by
  obtain ⟨out, hout, hne⟩ := getLoop_none_one_request serve (URLFactory.init key) endpoint
    list_key kwargs fuel [] [] _ (create_eq_of_transform _ _ _ _ ht)
  refine ⟨out, ?_, hne, ?_⟩
  · show getLoop _ _ _ _ _ _ (fuel + 1) none [] [] = _
    rw [hout]
    simp
  · intro kv hkv
    rcases dictMerge_keys_sub _ _ kv hkv with hfixed | htp2
    · simp only [URLFactory.init, List.map, List.mem_cons, List.not_mem_nil, or_false]
        at hfixed
      rcases hfixed with h | h <;> rw [h] <;> exact ⟨by decide, by decide⟩
    · rcases List.mem_map.mp htp2 with ⟨kv0, hkv0, hfst⟩
      have := pageParams_none_keys kwargs tp ht kv0 hkv0
      exact ⟨hfst ▸ this.1, hfst ▸ this.2⟩

/-- Witness for C10: a no-page-size call against the no-`count` mock with
plenty of fuel. -/
theorem c10_none_limit_single_request_witness :
    ∃ out,
      clientGet serveNoCount "k" "/e" "meta.data" none
          [("series_id", PyVal.str "GNPCA")] (4 + 1) =
        (out, [(URLFactory.init "k").base ++ "/e" ++ "?" ++
          encodeQuery (renderPairs (dictMerge (URLFactory.init "k").fixedParams
            [("series_id", PyVal.str "GNPCA")]))]) ∧
      out ≠ FetchOutcome.fuelOut ∧
      (∀ kv ∈ dictMerge (URLFactory.init "k").fixedParams
          [("series_id", PyVal.str "GNPCA")],
        kv.1 ≠ "limit" ∧ kv.1 ≠ "offset") :=
  c10_none_limit_single_request serveNoCount "k" "/e" "meta.data"
    [("series_id", PyVal.str "GNPCA")] [("series_id", PyVal.str "GNPCA")] 4 rfl
